import Mathlib

/-!
Shallow embedding of the client-side chat session manager of the ResuMatch
frontend (the `ChatProvider` React context, `frontend/src/context/ChatContext.tsx`).

The provider keeps, per authenticated user, the local chat view:
the transport handle (`socket`), the connection flag (`isConnected`),
the message log (`messages`), the room list (`chatRooms`), the currently
joined room (`currentRoom`), the typing-presence set (`typingUsers`) and
the unread counter (`unreadCount`).  Operations (`joinRoom`, `leaveRoom`,
`sendMessage`, `startTyping`, `stopTyping`, `markAsRead`, `clearMessages`,
`fetchChatRooms`) and inbound socket events (`new_message`, `chat_history`,
`user_typing`, `user_stopped_typing`, connect/disconnect) are modelled as
pure state transformers; signals emitted on the socket are returned as an
explicit output list, and asynchronous HTTP fetches are split into the
request (issued by the operation) and the resolution (a separate
transformer applied to whatever result arrives).
-/

set_option autoImplicit false

namespace ResuMatch

/-- Chat message record (`Message` interface in `types`). -/
structure Message where
  id : String
  room_id : String
  sender_id : String
  receiver_id : String
  content : String
  timestamp : String
  read : Bool
deriving DecidableEq, Repr

/-- Denormalised last-message summary stored on a room. -/
structure LastMessage where
  content : String
  sender_id : String
  timestamp : String
deriving DecidableEq, Repr

/-- Chat room record (`ChatRoom` interface in `types`). -/
structure ChatRoom where
  id : String
  job_id : String
  student_id : Option String
  recruiter_id : Option String
  job_title : String
  company_name : String
  participants : List String
  created_at : String
  last_message : Option LastMessage
  unread_count : Nat
deriving DecidableEq, Repr

/-- Local state of the `ChatProvider`: the `useState` cells
`socket` (modelled by whether a socket handle has been stored),
`isConnected`, `messages`, `chatRooms`, `currentRoom`, `typingUsers`
and `unreadCount`. -/
structure ChatState where
  hasSocket : Bool
  isConnected : Bool
  messages : List Message
  chatRooms : List ChatRoom
  currentRoom : Option String
  typingUsers : List String
  unreadCount : Nat
deriving DecidableEq, Repr

/-- Initial state of the provider (the `useState` initialisers:
no socket, disconnected, empty log, empty room list, no current room,
no typing users, unread count 0). -/
def initState : ChatState :=
  { hasSocket := false
    isConnected := false
    messages := []
    chatRooms := []
    currentRoom := none
    typingUsers := []
    unreadCount := 0 }

/-- Outbound signals emitted on the socket by the operations. -/
inductive Emit where
  | joinRoomSig (room_id : String)
  | leaveRoomSig (room_id : String)
  | sendMessageSig (room_id : String) (content : String) (receiver_id : String)
  | startTypingSig (room_id : String)
  | stopTypingSig (room_id : String)
  | markAsReadSig (room_id : String)
deriving DecidableEq, Repr

/-- Guard `if (socket && isConnected)` that gates every operation of the
provider. -/
def connReady (s : ChatState) : Bool :=
  s.hasSocket && s.isConnected

/-- Result of the HTTP history fetch `GET /chat/history/:roomId`:
an OK response (whose JSON may or may not carry a `messages` array,
hence the `Option`, covering `data.messages || []`), a non-OK status,
or a network error (the `catch` branch). -/
inductive HistoryFetch where
  | ok (messages : Option (List Message))
  | httpError (status : Nat)
  | netError
deriving DecidableEq, Repr

/-- Result of the HTTP room-list fetch (`/student/chat-rooms` or
`/recruiter/chat-rooms`): an OK response (JSON may lack `chat_rooms`,
covering `data.chat_rooms || []`), a non-OK status, or a network error. -/
inductive RoomsFetch where
  | ok (chat_rooms : Option (List ChatRoom))
  | httpError (status : Nat)
  | netError
deriving DecidableEq, Repr

/-- Outcome of the synchronous part of `joinRoom`: the updated state, the
signals emitted, and the room id whose history backfill was requested
(`none` when no fetch was issued). -/
structure JoinResult where
  state : ChatState
  emits : List Emit
  historyRequest : Option String
deriving DecidableEq, Repr

/-- Synchronous part of `joinRoom(roomId)`: when the socket exists and
is connected it emits `join_room`, sets the current room, clears the
message log and issues the history fetch for `roomId`; otherwise nothing
happens.  The source has no comparison of `roomId` with the current
room. -/
def joinRoom (s : ChatState) (roomId : String) : JoinResult :=
  if connReady s then
    { state := { s with currentRoom := some roomId, messages := [] }
      emits := [Emit.joinRoomSig roomId]
      historyRequest := some roomId }
  else
    { state := s, emits := [], historyRequest := none }

/-- Resolution of the history backfill issued by `joinRoom`: on an OK
response the log is replaced by `data.messages || []` (no comparison with
the current room appears in the source); on a non-OK status or a network
error the failure is only logged and the state is unchanged. -/
def joinRoomResolve (s : ChatState) (res : HistoryFetch) : ChatState :=
  match res with
  | HistoryFetch.ok ms => { s with messages := ms.getD [] }
  | HistoryFetch.httpError _ => s
  | HistoryFetch.netError => s

/-- The operation `leaveRoom(roomId)`: when connected it emits `leave_room`
and sets the current room to `null`; the source compares nothing with
`roomId`. -/
def leaveRoom (s : ChatState) (roomId : String) : ChatState × List Emit :=
  if connReady s then
    ({ s with currentRoom := none }, [Emit.leaveRoomSig roomId])
  else
    (s, [])

/-- The operation `sendMessage(roomId, message, receiverId)`: when connected
it emits `send_message` with the given fields verbatim; the source neither
trims the text nor compares `roomId` with the current room, and it never
touches local state. -/
def sendMessage (s : ChatState) (roomId text receiverId : String) :
    ChatState × List Emit :=
  if connReady s then
    (s, [Emit.sendMessageSig roomId text receiverId])
  else
    (s, [])

/-- The operation `startTyping(roomId)`: emits `start_typing` when
connected; no state change. -/
def startTyping (s : ChatState) (roomId : String) : ChatState × List Emit :=
  if connReady s then (s, [Emit.startTypingSig roomId]) else (s, [])

/-- The operation `stopTyping(roomId)`: emits `stop_typing` when connected;
no state change. -/
def stopTyping (s : ChatState) (roomId : String) : ChatState × List Emit :=
  if connReady s then (s, [Emit.stopTypingSig roomId]) else (s, [])

/-- The operation `markAsRead(roomId)`: when connected it emits
`mark_as_read` and resets the unread counter to 0; otherwise nothing
happens. -/
def markAsRead (s : ChatState) (roomId : String) : ChatState × List Emit :=
  if connReady s then
    ({ s with unreadCount := 0 }, [Emit.markAsReadSig roomId])
  else
    (s, [])

/-- The operation `clearMessages()`: empties the message log. -/
def clearMessages (s : ChatState) : ChatState :=
  { s with messages := [] }

/-- The operation `fetchChatRooms()`: returns immediately when user or
token is missing (no request is made); otherwise, on an OK response the
room list is replaced wholesale by `data.chat_rooms || []`, and on a
non-OK status or a network error the failure is only logged and the
previous list is kept. -/
def fetchChatRooms (hasUser hasToken : Bool) (s : ChatState)
    (res : RoomsFetch) : ChatState :=
  if !(hasUser && hasToken) then s
  else
    match res with
    | RoomsFetch.ok rooms => { s with chatRooms := rooms.getD [] }
    | RoomsFetch.httpError _ => s
    | RoomsFetch.netError => s

/-- Handler of the inbound `new_message` event: the message is appended to
the log, and when `message.room_id !== currentRoom` the unread counter is
incremented by one. -/
def handleNewMessage (s : ChatState) (m : Message) : ChatState :=
  { s with
    messages := s.messages ++ [m]
    unreadCount :=
      if some m.room_id ≠ s.currentRoom then s.unreadCount + 1
      else s.unreadCount }

/-- Handler of the inbound `chat_history` event: the log is replaced by the
snapshot only when `room_id === currentRoom`. -/
def handleChatHistory (s : ChatState) (room_id : String)
    (roomMessages : List Message) : ChatState :=
  if some room_id = s.currentRoom then
    { s with messages := roomMessages }
  else
    s

/-- Handler of the inbound `user_typing` event: when the event targets the
current room and the sender is not the local user, the sender is moved to
the end of the typing list (filtered out first, so never duplicated) and
an automatic removal is scheduled after the 3-second quiet window; the
scheduled removal's subject is returned as the second component (`none`
when nothing was scheduled). -/
def handleUserTyping (username : String) (s : ChatState)
    (userId roomId : String) : ChatState × Option String :=
  if some roomId = s.currentRoom ∧ userId ≠ username then
    ({ s with
        typingUsers :=
          s.typingUsers.filter (fun i => i != userId) ++ [userId] },
     some userId)
  else
    (s, none)

/-- Firing of the 3-second auto-removal scheduled by the `user_typing`
handler: the user is filtered out of the typing list, unconditionally. -/
def typingTimeoutFire (s : ChatState) (userId : String) : ChatState :=
  { s with typingUsers := s.typingUsers.filter (fun i => i != userId) }

/-- Handler of the inbound `user_stopped_typing` event: when the event
targets the current room, the sender is filtered out of the typing list
immediately. -/
def handleUserStoppedTyping (s : ChatState) (userId roomId : String) :
    ChatState :=
  if some roomId = s.currentRoom then
    { s with typingUsers := s.typingUsers.filter (fun i => i != userId) }
  else
    s

/-- Derived flag exposed by the provider: `isTyping: typingUsers.length > 0`. -/
def isTyping (s : ChatState) : Bool :=
  decide (s.typingUsers.length > 0)

/-- Every transition of the provider state: operations invoked by the UI,
resolutions of pending HTTP fetches, inbound socket events, connection
lifecycle events, and scheduled typing timeouts. -/
inductive ChatEvent where
  | opJoin (roomId : String)
  | opJoinResolve (res : HistoryFetch)
  | opLeave (roomId : String)
  | opSend (roomId text receiverId : String)
  | opStartTyping (roomId : String)
  | opStopTyping (roomId : String)
  | opMarkAsRead (roomId : String)
  | opClearMessages
  | opFetchRooms (hasUser hasToken : Bool) (res : RoomsFetch)
  | evConnect
  | evDisconnect
  | evConnectError
  | evNewMessage (m : Message)
  | evChatHistory (room_id : String) (messages : List Message)
  | evUserTyping (userId roomId : String)
  | evUserStoppedTyping (userId roomId : String)
  | evTypingTimeout (userId : String)

/-- Effect of one event on the provider state (emitted signals dropped).
`evConnect` covers the `connect` handler (`setIsConnected(true)`) together
with `setSocket` performed by `setupEventHandlers`; `evDisconnect` and
`evConnectError` cover the corresponding handlers (`setIsConnected(false)`). -/
def step (username : String) (s : ChatState) : ChatEvent → ChatState
  | ChatEvent.opJoin roomId => (joinRoom s roomId).state
  | ChatEvent.opJoinResolve res => joinRoomResolve s res
  | ChatEvent.opLeave roomId => (leaveRoom s roomId).1
  | ChatEvent.opSend roomId text receiverId =>
      (sendMessage s roomId text receiverId).1
  | ChatEvent.opStartTyping roomId => (startTyping s roomId).1
  | ChatEvent.opStopTyping roomId => (stopTyping s roomId).1
  | ChatEvent.opMarkAsRead roomId => (markAsRead s roomId).1
  | ChatEvent.opClearMessages => clearMessages s
  | ChatEvent.opFetchRooms hasUser hasToken res =>
      fetchChatRooms hasUser hasToken s res
  | ChatEvent.evConnect => { s with hasSocket := true, isConnected := true }
  | ChatEvent.evDisconnect => { s with isConnected := false }
  | ChatEvent.evConnectError => { s with isConnected := false }
  | ChatEvent.evNewMessage m => handleNewMessage s m
  | ChatEvent.evChatHistory room_id ms => handleChatHistory s room_id ms
  | ChatEvent.evUserTyping userId roomId =>
      (handleUserTyping username s userId roomId).1
  | ChatEvent.evUserStoppedTyping userId roomId =>
      handleUserStoppedTyping s userId roomId
  | ChatEvent.evTypingTimeout userId => typingTimeoutFire s userId

/-- State reached from the initial state by a sequence of events. -/
def reach (username : String) (evs : List ChatEvent) : ChatState :=
  evs.foldl (step username) initState

/-- Concrete states and messages used in the closed instances below. -/
def connState : ChatState :=
  { initState with hasSocket := true, isConnected := true }

/-- A message that belongs to room `A`. -/
def mA : Message :=
  { id := "m1", room_id := "A", sender_id := "u2", receiver_id := "u1"
    content := "hello from A", timestamp := "t1", read := false }

/-- A message that belongs to room `B`. -/
def mB : Message :=
  { id := "m2", room_id := "B", sender_id := "u2", receiver_id := "u1"
    content := "hello from B", timestamp := "t2", read := false }

/-- Connected state whose current room is `r1`. -/
def csR1 : ChatState := { connState with currentRoom := some "r1" }

/-- Connected state joined to room `B` with one message in the log. -/
def csB : ChatState := { connState with currentRoom := some "B", messages := [mB] }

/-- Connected state joined to room `r1` with one message in the log. -/
def csJoin : ChatState :=
  { connState with currentRoom := some "r1", messages := [mB] }

/-- Connected state whose current room is `A`. -/
def csA : ChatState := { connState with currentRoom := some "A" }

/-- Disconnected state with a nonzero unread counter. -/
def dsUnread : ChatState := { initState with unreadCount := 5 }

/-- Connected state with a nonzero unread counter. -/
def csUnread : ChatState := { connState with unreadCount := 7 }

/-- C2, counterexample: in a connected state joined to room `r1`,
`sendMessage("r1", "", "u2")` with empty text (which trivially trims to
empty) still emits the send signal, contradicting the claimed no-op; and
`sendMessage("r9", ...)` for a room other than the current one also
emits. -/
theorem chat_C2_counterexample :
    ("" : String).isEmpty = true ∧ csR1.currentRoom = some "r1" ∧
      (sendMessage csR1 "r1" "" "u2").2 =
        [Emit.sendMessageSig "r1" "" "u2"] ∧
      (sendMessage csR1 "r1" "" "u2").2 ≠ [] ∧
      ("r9" : String) ≠ "r1" ∧
      (sendMessage csR1 "r9" "hi" "u2").2 =
        [Emit.sendMessageSig "r9" "hi" "u2"] := by
  refine ⟨rfl, rfl, rfl, by decide, by decide, rfl⟩

/-- C2, amended: `sendMessage` is a no-op only when the socket is missing
or disconnected; when connected it emits the send signal with the given
room, text and receiver verbatim — even when the text trims to empty or
the room is not the current one — and local state is never changed. -/
theorem chat_C2_amended (s : ChatState) (roomId text receiverId : String) :
    (sendMessage s roomId text receiverId).1 = s ∧
      (sendMessage s roomId text receiverId).2 =
        (if connReady s then [Emit.sendMessageSig roomId text receiverId]
         else []) := by
  cases h : connReady s <;> simp [sendMessage, h]

/-- C3, counterexample: with current room `B`, an inbound message for room
`A` is appended to the message log (the claim states it is not appended),
while the unread counter increments by 1. -/
theorem chat_C3_counterexample :
    csB.currentRoom = some "B" ∧ mA.room_id = "A" ∧
      (handleNewMessage csB mA).messages = [mB, mA] ∧
      (handleNewMessage csB mA).messages ≠ csB.messages ∧
      (handleNewMessage csB mA).unreadCount = csB.unreadCount + 1 := by
  refine ⟨rfl, rfl, rfl, by decide, rfl⟩

/-- C3, amended: every inbound message is appended to the message log,
regardless of its room; the unread counter is unchanged when the message
belongs to the current room and increments by exactly 1 otherwise; the
current room and room list are untouched. -/
theorem chat_C3_amended (s : ChatState) (m : Message) :
    (handleNewMessage s m).messages = s.messages ++ [m] ∧
      (handleNewMessage s m).unreadCount =
        (if some m.room_id = s.currentRoom then s.unreadCount
         else s.unreadCount + 1) ∧
      (handleNewMessage s m).currentRoom = s.currentRoom ∧
      (handleNewMessage s m).chatRooms = s.chatRooms := by
  refine ⟨rfl, ?_, rfl, rfl⟩
  by_cases h : some m.room_id = s.currentRoom <;> simp [handleNewMessage, h]

/-- C5, counterexample: in a connected state already joined to room `r1`,
`joinRoom("r1")` is not a no-op: it emits the join signal, clears the
nonempty message log and issues a history backfill. -/
theorem chat_C5_counterexample :
    csJoin.currentRoom = some "r1" ∧
      (joinRoom csJoin "r1").emits = [Emit.joinRoomSig "r1"] ∧
      (joinRoom csJoin "r1").emits ≠ [] ∧
      (joinRoom csJoin "r1").state.messages = [] ∧
      csJoin.messages ≠ [] ∧
      (joinRoom csJoin "r1").historyRequest = some "r1" := by
  refine ⟨rfl, rfl, by decide, rfl, by decide, rfl⟩

/-- C5, amended: `joinRoom` is gated only on the connection; when connected
it always emits the join signal, sets the current room, clears the message
log and issues the history backfill — for any `roomId`, including one that
already equals the current room — and it is a no-op only when
disconnected. -/
theorem chat_C5_amended (s : ChatState) (roomId : String) :
    (connReady s = true →
        (joinRoom s roomId).emits = [Emit.joinRoomSig roomId] ∧
          (joinRoom s roomId).state.messages = [] ∧
          (joinRoom s roomId).state.currentRoom = some roomId ∧
          (joinRoom s roomId).historyRequest = some roomId) ∧
      (connReady s = false →
        joinRoom s roomId =
          { state := s, emits := [], historyRequest := none }) := by
  constructor <;> intro h <;> simp [joinRoom, h]

/-- C5, closed instance of the amended claim at a concrete connected state
already joined to `r1`, so the exercised join targets the room that is
already current. -/
theorem chat_C5_witness :
    (connReady csJoin = true →
        (joinRoom csJoin "r1").emits = [Emit.joinRoomSig "r1"] ∧
          (joinRoom csJoin "r1").state.messages = [] ∧
          (joinRoom csJoin "r1").state.currentRoom = some "r1" ∧
          (joinRoom csJoin "r1").historyRequest = some "r1") ∧
      (connReady csJoin = false →
        joinRoom csJoin "r1" =
          { state := csJoin, emits := [], historyRequest := none }) :=
  chat_C5_amended csJoin "r1"

/-- C6, counterexample: in a connected state joined to room `A`,
`leaveRoom("B")` emits the leave signal and clears the current room to
none, although `B` is not the current room — the claim states the pointer
is left unchanged in that case. -/
theorem chat_C6_counterexample :
    csA.currentRoom = some "A" ∧ ("B" : String) ≠ "A" ∧
      (leaveRoom csA "B").1.currentRoom = none ∧
      (leaveRoom csA "B").1.currentRoom ≠ csA.currentRoom ∧
      (leaveRoom csA "B").2 = [Emit.leaveRoomSig "B"] := by
  refine ⟨rfl, by decide, rfl, by decide, rfl⟩

/-- C6, amended: when connected, `leaveRoom(roomId)` always emits the
leave signal and sets the current room to none, regardless of whether
`roomId` matches the current room; when not connected it is a no-op. -/
theorem chat_C6_amended (s : ChatState) (roomId : String) :
    (connReady s = true →
        (leaveRoom s roomId).1.currentRoom = none ∧
          (leaveRoom s roomId).2 = [Emit.leaveRoomSig roomId] ∧
          (leaveRoom s roomId).1.messages = s.messages ∧
          (leaveRoom s roomId).1.unreadCount = s.unreadCount) ∧
      (connReady s = false → leaveRoom s roomId = (s, [])) := by
  constructor <;> intro h <;> simp [leaveRoom, h]

/-- C6, closed instance of the amended claim at a concrete connected state
joined to `A`, leaving room `B`. -/
theorem chat_C6_witness :
    (connReady csA = true →
        (leaveRoom csA "B").1.currentRoom = none ∧
          (leaveRoom csA "B").2 = [Emit.leaveRoomSig "B"] ∧
          (leaveRoom csA "B").1.messages = csA.messages ∧
          (leaveRoom csA "B").1.unreadCount = csA.unreadCount) ∧
      (connReady csA = false → leaveRoom csA "B" = (csA, [])) :=
  chat_C6_amended csA "B"

/-- C7, counterexample: in a disconnected state with unread counter 5,
`markAsRead("r1")` leaves the counter at 5, contradicting the claim that
it always resets to 0. -/
theorem chat_C7_counterexample :
    connReady dsUnread = false ∧ dsUnread.unreadCount = 5 ∧
      (markAsRead dsUnread "r1").1.unreadCount = 5 ∧
      (markAsRead dsUnread "r1").1.unreadCount ≠ 0 := by
  refine ⟨rfl, rfl, rfl, by decide⟩

/-- C7, amended: when connected, `markAsRead` resets the unread counter to
0 regardless of its prior value and leaves the message log, current room
and room list unchanged; when not connected it is a no-op. -/
theorem chat_C7_amended (s : ChatState) (roomId : String) :
    (connReady s = true →
        (markAsRead s roomId).1.unreadCount = 0 ∧
          (markAsRead s roomId).1.messages = s.messages ∧
          (markAsRead s roomId).1.currentRoom = s.currentRoom ∧
          (markAsRead s roomId).1.chatRooms = s.chatRooms ∧
          (markAsRead s roomId).2 = [Emit.markAsReadSig roomId]) ∧
      (connReady s = false → markAsRead s roomId = (s, [])) := by
  constructor <;> intro h <;> simp [markAsRead, h]

/-- C7, closed instance of the amended claim at a concrete connected state
with unread counter 7. -/
theorem chat_C7_witness :
    (connReady csUnread = true →
        (markAsRead csUnread "r1").1.unreadCount = 0 ∧
          (markAsRead csUnread "r1").1.messages = csUnread.messages ∧
          (markAsRead csUnread "r1").1.currentRoom = csUnread.currentRoom ∧
          (markAsRead csUnread "r1").1.chatRooms = csUnread.chatRooms ∧
          (markAsRead csUnread "r1").2 = [Emit.markAsReadSig "r1"]) ∧
      (connReady csUnread = false → markAsRead csUnread "r1" = (csUnread, [])) :=
  chat_C7_amended csUnread "r1"

/-- C8, confirmed: when a room-list request was actually issued (user and
token present), any failure — network error or non-OK response — leaves
the whole state, in particular the previous room list, unchanged; an OK
response replaces the room list wholesale with the fetched list. -/
theorem chat_C8 (s : ChatState) (res : RoomsFetch) :
    ((res = RoomsFetch.netError ∨ ∃ st, res = RoomsFetch.httpError st) →
        fetchChatRooms true true s res = s) ∧
      ∀ rooms, res = RoomsFetch.ok rooms →
        fetchChatRooms true true s res =
          { s with chatRooms := rooms.getD [] } := by
  constructor
  · rintro (rfl | ⟨st, rfl⟩) <;> rfl
  · rintro rooms rfl
    rfl

/-- C8, closed instance at a concrete state and a network-error result. -/
theorem chat_C8_witness :
    ((RoomsFetch.netError = RoomsFetch.netError ∨
        ∃ st, RoomsFetch.netError = RoomsFetch.httpError st) →
        fetchChatRooms true true csB RoomsFetch.netError = csB) ∧
      ∀ rooms, RoomsFetch.netError = RoomsFetch.ok rooms →
        fetchChatRooms true true csB RoomsFetch.netError =
          { csB with chatRooms := rooms.getD [] } :=
  chat_C8 csB RoomsFetch.netError

/-- C1, counterexample: `joinRoom("A")` followed by `joinRoom("B")` before
the history fetch for `A` resolves; when the backfill response for `A`
(carrying a message whose room is `A`) finally arrives, it replaces the
message log although the current room is `B` — the claim states such a
stale snapshot is not applied. -/
theorem chat_C1_counterexample :
    ((joinRoom (joinRoom connState "A").state "B").state).currentRoom =
        some "B" ∧
      ((joinRoom (joinRoom connState "A").state "B").state).messages = [] ∧
      mA.room_id = "A" ∧
      (joinRoomResolve (joinRoom (joinRoom connState "A").state "B").state
          (HistoryFetch.ok (some [mA]))).messages = [mA] ∧
      (joinRoomResolve (joinRoom (joinRoom connState "A").state "B").state
          (HistoryFetch.ok (some [mA]))).currentRoom = some "B" := by
  exact ⟨rfl, rfl, rfl, rfl, rfl⟩

/-- C1, amended: only the chat-history transport event is guarded — it
replaces the message log exactly when its room id equals the currently
joined room — while the history backfill issued by `joinRoom` is applied
unconditionally when its fetch succeeds, even when the current room has
changed since the request was issued. -/
theorem chat_C1_amended (s : ChatState) (rid : String) (ms : List Message)
    (hist : Option (List Message)) :
    ((handleChatHistory s rid ms).messages =
        (if some rid = s.currentRoom then ms else s.messages)) ∧
      (handleChatHistory s rid ms).currentRoom = s.currentRoom ∧
      (joinRoomResolve s (HistoryFetch.ok hist)).messages = hist.getD [] ∧
      (joinRoomResolve s (HistoryFetch.ok hist)).currentRoom =
        s.currentRoom := by
  refine ⟨?_, ?_, rfl, rfl⟩ <;>
    by_cases h : some rid = s.currentRoom <;> simp [handleChatHistory, h]

/-- The user removed by the typing-removal filter is never in its output. -/
theorem not_mem_filter_ne (l : List String) (u : String) :
    u ∉ l.filter (fun i => i != u) := by
  intro h
  have := List.of_mem_filter h
  simp at this

/-- The typing-removal filter is the identity on lists not holding the
user. -/
theorem filter_ne_of_not_mem (l : List String) (u : String) (h : u ∉ l) :
    l.filter (fun i => i != u) = l := by
  apply List.filter_eq_self.mpr
  intro a ha
  have hne : a ≠ u := fun he => h (he ▸ ha)
  simpa using hne

/-- C9, confirmed: the auto-removal scheduled by a typing-started event
removes the user's entry when it fires, even if no typing-stopped event
ever arrives; an explicit typing-stopped event for the current room
removes the entry immediately; firing the delayed auto-removal on a state
without the entry changes nothing (in particular, after an explicit stop
it is a no-op); and whenever the typing handler schedules an auto-removal
it has added the user to the typing set. -/
theorem chat_C9 (username : String) (s : ChatState)
    (userId roomId : String) :
    userId ∉ (typingTimeoutFire s userId).typingUsers ∧
      (some roomId = s.currentRoom →
        userId ∉ (handleUserStoppedTyping s userId roomId).typingUsers) ∧
      (userId ∉ s.typingUsers → typingTimeoutFire s userId = s) ∧
      (some roomId = s.currentRoom →
        typingTimeoutFire (handleUserStoppedTyping s userId roomId)
            userId =
          handleUserStoppedTyping s userId roomId) ∧
      ((handleUserTyping username s userId roomId).2 = some userId →
        userId ∈
          ((handleUserTyping username s userId roomId).1).typingUsers) := by
  refine ⟨not_mem_filter_ne _ _, ?_, ?_, ?_, ?_⟩
  · intro h
    unfold handleUserStoppedTyping
    rw [if_pos h]
    exact not_mem_filter_ne _ _
  · intro h
    unfold typingTimeoutFire
    rw [filter_ne_of_not_mem _ _ h]
  · intro h
    have h2 : userId ∉ (handleUserStoppedTyping s userId roomId).typingUsers := by
      unfold handleUserStoppedTyping
      rw [if_pos h]
      exact not_mem_filter_ne _ _
    unfold typingTimeoutFire
    rw [filter_ne_of_not_mem _ _ h2]
  · intro h
    by_cases hc : some roomId = s.currentRoom ∧ userId ≠ username
    · unfold handleUserTyping
      rw [if_pos hc]
      exact List.mem_append_right _ (List.mem_singleton_self _)
    · exfalso
      unfold handleUserTyping at h
      rw [if_neg hc] at h
      simp at h

/-- Connected state joined to `r1` in which user `u2` is typing. -/
def csTyping : ChatState :=
  { connState with currentRoom := some "r1", typingUsers := ["u2"] }

/-- C9, closed instance at a concrete connected state with `u2` typing in
the current room `r1`. -/
theorem chat_C9_witness :
    "u2" ∉ (typingTimeoutFire csTyping "u2").typingUsers ∧
      (some "r1" = csTyping.currentRoom →
        "u2" ∉ (handleUserStoppedTyping csTyping "u2" "r1").typingUsers) ∧
      ("u2" ∉ csTyping.typingUsers → typingTimeoutFire csTyping "u2" = csTyping) ∧
      (some "r1" = csTyping.currentRoom →
        typingTimeoutFire (handleUserStoppedTyping csTyping "u2" "r1") "u2" =
          handleUserStoppedTyping csTyping "u2" "r1") ∧
      ((handleUserTyping "me" csTyping "u2" "r1").2 = some "u2" →
        "u2" ∈ ((handleUserTyping "me" csTyping "u2" "r1").1).typingUsers) :=
  chat_C9 "me" csTyping "u2" "r1"

/-- Adding a user to the typing set by filter-then-append preserves
freedom from duplicates. -/
theorem nodup_filter_append (l : List String) (u : String)
    (h : l.Nodup) : (l.filter (fun i => i != u) ++ [u]).Nodup := by
  rw [List.nodup_append]
  refine ⟨h.filter _, List.nodup_singleton u, ?_⟩
  intro a ha hb
  rw [List.mem_singleton] at hb
  subst hb
  exact not_mem_filter_ne _ _ ha

/-- Every single transition of the provider preserves freedom from
duplicates of the typing set. -/
theorem typing_nodup_step (username : String) (s : ChatState)
    (e : ChatEvent) (h : s.typingUsers.Nodup) :
    (step username s e).typingUsers.Nodup := by
  cases e with
  | opJoin roomId =>
    show (joinRoom s roomId).state.typingUsers.Nodup
    unfold joinRoom
    split <;> exact h
  | opJoinResolve res => cases res <;> exact h
  | opLeave roomId =>
    show ((leaveRoom s roomId).1).typingUsers.Nodup
    unfold leaveRoom
    split <;> exact h
  | opSend roomId text receiverId =>
    show ((sendMessage s roomId text receiverId).1).typingUsers.Nodup
    unfold sendMessage
    split <;> exact h
  | opStartTyping roomId =>
    show ((startTyping s roomId).1).typingUsers.Nodup
    unfold startTyping
    split <;> exact h
  | opStopTyping roomId =>
    show ((stopTyping s roomId).1).typingUsers.Nodup
    unfold stopTyping
    split <;> exact h
  | opMarkAsRead roomId =>
    show ((markAsRead s roomId).1).typingUsers.Nodup
    unfold markAsRead
    split <;> exact h
  | opClearMessages => exact h
  | opFetchRooms hasUser hasToken res =>
    show (fetchChatRooms hasUser hasToken s res).typingUsers.Nodup
    unfold fetchChatRooms
    split
    · exact h
    · split <;> exact h
  | evConnect => exact h
  | evDisconnect => exact h
  | evConnectError => exact h
  | evNewMessage m => exact h
  | evChatHistory room_id ms =>
    show (handleChatHistory s room_id ms).typingUsers.Nodup
    unfold handleChatHistory
    split <;> exact h
  | evUserTyping userId roomId =>
    show ((handleUserTyping username s userId roomId).1).typingUsers.Nodup
    unfold handleUserTyping
    split
    · exact nodup_filter_append _ _ h
    · exact h
  | evUserStoppedTyping userId roomId =>
    show (handleUserStoppedTyping s userId roomId).typingUsers.Nodup
    unfold handleUserStoppedTyping
    split
    · exact h.filter _
    · exact h
  | evTypingTimeout userId => exact h.filter _

/-- Freedom from duplicates of the typing set is preserved along any event
sequence. -/
theorem typing_nodup_foldl (username : String) (evs : List ChatEvent)
    (s : ChatState) (h : s.typingUsers.Nodup) :
    ((evs.foldl (step username) s).typingUsers).Nodup := by
  induction evs generalizing s with
  | nil => exact h
  | cons e rest ih => exact ih _ (typing_nodup_step username s e h)

/-- The derived flag reads true exactly on a nonempty typing set. -/
theorem isTyping_eq (s : ChatState) :
    isTyping s = true ↔ s.typingUsers ≠ [] := by
  simp [isTyping, List.length_pos]

/-- C10, confirmed: in every state reachable by any event sequence the
typing set holds no duplicate user identifier, the derived `isTyping`
flag is true exactly when the typing set is nonempty, and a
typing-started event leaves each user with at most one entry (an already
present user is replaced, not duplicated). -/
theorem chat_C10 (username : String) (evs : List ChatEvent) :
    (reach username evs).typingUsers.Nodup ∧
      (isTyping (reach username evs) = true ↔
        (reach username evs).typingUsers ≠ []) ∧
      ∀ u r,
        ((handleUserTyping username (reach username evs) u
              r).1).typingUsers.count u ≤ 1 := by
  have hnd : (reach username evs).typingUsers.Nodup :=
    typing_nodup_foldl username evs initState List.nodup_nil
  refine ⟨hnd, isTyping_eq _, ?_⟩
  intro u r
  have hnd2 :
      (((handleUserTyping username (reach username evs) u
            r).1).typingUsers).Nodup :=
    typing_nodup_step username (reach username evs)
      (ChatEvent.evUserTyping u r) hnd
  exact List.nodup_iff_count_le_one.mp hnd2 u

end ResuMatch
